import Mathlib

/-!
Shallow embedding of `ai_wargame.py` (a two-player grid wargame: rule engine,
move-legality state machine, move resolution and candidate enumeration),
together with theorems checking the design specification against it.

Conventions of the embedding:
* Python unbounded `int` is `Int`; Python `str` values that the embedded
  operations inspect are `List Char` (or `String` where only built).
* The Python board is a `dim` x `dim` list of optional units accessed only
  through bounds-checked indices; it is embedded as its contents function
  from `(row, col)` to the optional occupant, and `Game.set` writes one cell
  pointwise.  In-place mutation of a `Unit` object that the board references
  is embedded as writing the updated unit back to its cell.
* Debug `print` calls and file/broker I/O in the source are pure no-ops for
  the state and are omitted; the `game_trace` list of strings is kept.
-/

namespace AiWargame

/-- The unit types of the game, in the source's enum order. -/
inductive UnitType where
  | AI
  | Tech
  | Virus
  | Program
  | Firewall
deriving DecidableEq

/-- Enum ordinal of a unit type (`UnitType.value` in the source). -/
def UnitType.value : UnitType → Nat
  | .AI => 0
  | .Tech => 1
  | .Virus => 2
  | .Program => 3
  | .Firewall => 4

/-- The two players. -/
inductive Player where
  | Attacker
  | Defender
deriving DecidableEq

/-- The next (other) player. -/
def Player.next : Player → Player
  | .Attacker => .Defender
  | .Defender => .Attacker

/-- The `name` attribute of the player enum member. -/
def Player.name : Player → String
  | .Attacker => "Attacker"
  | .Defender => "Defender"

/-- A unit on the board: owning player, type and health. -/
structure Unit where
  player : Player
  type : UnitType
  health : Int
deriving DecidableEq

/-- Damage table for units, indexed by the unit-type ordinals. -/
def damage_table : List (List Int) :=
  [[3, 3, 3, 3, 1],
   [1, 1, 6, 1, 1],
   [9, 6, 1, 6, 1],
   [3, 3, 3, 3, 1],
   [1, 1, 1, 1, 1]]

/-- Repair table for units, indexed by the unit-type ordinals. -/
def repair_table : List (List Int) :=
  [[0, 1, 1, 0, 0],
   [3, 0, 0, 3, 3],
   [0, 0, 0, 0, 0],
   [0, 0, 0, 0, 0],
   [0, 0, 0, 0, 0]]

/-- Nested list lookup `table[i][j]`; indices stay in range for the 5 x 5
tables above, the default is never reached. -/
def tableLookup (t : List (List Int)) (i j : Nat) : Int :=
  (t.getD i []).getD j 0

/-- Are we alive? -/
def Unit.is_alive (u : Unit) : Bool :=
  decide (u.health > 0)

/-- Modify this unit's health by a delta amount, clamping to [0, 9]. -/
def Unit.mod_health (u : Unit) (health_delta : Int) : Unit :=
  let h := u.health + health_delta
  if h < 0 then { u with health := 0 }
  else if h > 9 then { u with health := 9 }
  else { u with health := h }

/-- How much can this unit damage another unit: table entry capped at the
target's remaining health. -/
def Unit.damage_amount (self target : Unit) : Int :=
  let amount := tableLookup damage_table self.type.value target.type.value
  if target.health - amount < 0 then target.health else amount

/-- How much can this unit repair another unit: table entry capped so the
target's health does not exceed 9. -/
def Unit.repair_amount (self target : Unit) : Int :=
  let amount := tableLookup repair_table self.type.value target.type.value
  if target.health + amount > 9 then 9 - target.health else amount

/-- Text representation of this unit, for example `aP9`. -/
def Unit.to_string (u : Unit) : String :=
  let p := match u.player with
    | .Attacker => "a"
    | .Defender => "d"
  let t := match u.type with
    | .AI => "A"
    | .Tech => "T"
    | .Virus => "V"
    | .Program => "P"
    | .Firewall => "F"
  p ++ t ++ toString u.health

/-- A game cell coordinate (row, col); the fields are Python ints. -/
structure Coord where
  row : Int
  col : Int
deriving DecidableEq

/-- The column label characters of the source, `0123456789abcdef`. -/
def colChars : List Char := "0123456789abcdef".toList

/-- The row label characters of the source, `A` to `Z`. -/
def rowChars : List Char := "ABCDEFGHIJKLMNOPQRSTUVWXYZ".toList

/-- Python sequence indexing on a character sequence: a negative index counts
from the end; an index out of range raises `IndexError` in Python and is
totalised here to the placeholder character. -/
def pyIndex (l : List Char) (i : Int) : Char :=
  if 0 ≤ i then l.getD i.toNat '?'
  else if 0 ≤ i + l.length then l.getD (i + l.length).toNat '?'
  else '?'

/-- Text representation of this Coord's column. -/
def Coord.col_string (c : Coord) : String :=
  if c.col < 16 then String.mk [pyIndex colChars c.col] else "?"

/-- Text representation of this Coord's row. -/
def Coord.row_string (c : Coord) : String :=
  if c.row < 26 then String.mk [pyIndex rowChars c.row] else "?"

/-- Text representation of this Coord, for example `D2`. -/
def Coord.to_string (c : Coord) : String :=
  c.row_string ++ c.col_string

/-- Adjacent Coords in the source's yield order: up, left, down, right. -/
def Coord.iter_adjacent (c : Coord) : List Coord :=
  [Coord.mk (c.row - 1) c.col,
   Coord.mk c.row (c.col - 1),
   Coord.mk (c.row + 1) c.col,
   Coord.mk c.row (c.col + 1)]

/-- Python whitespace characters removed by `str.strip()` (ASCII subset). -/
def pyIsSpace (c : Char) : Bool :=
  c = ' ' || c = '\t' || c = '\n' || c = '\r' || c = '\x0b' || c = '\x0c'

/-- Python `str.strip()`: drop leading and trailing whitespace. -/
def pyStrip (l : List Char) : List Char :=
  ((l.dropWhile pyIsSpace).reverse.dropWhile pyIsSpace).reverse

/-- Python `s.replace(old, "")` for a single character: remove every
occurrence. -/
def pyReplace (l : List Char) (old : Char) : List Char :=
  l.filter (fun c => c ≠ old)

/-- The separator-removal loop of the source: for each character of
`" ,.:;-_"` in turn, remove all its occurrences. -/
def stripSeps (l : List Char) : List Char :=
  " ,.:;-_".toList.foldl pyReplace l

/-- Python `str.find`: index of the first occurrence, or -1 if absent. -/
def strFind : List Char → Char → Int
  | [], _ => -1
  | c :: rest, d =>
    if c = d then 0
    else
      let r := strFind rest d
      if r = -1 then -1 else r + 1

/-- Create a Coord from a string such as `D2`: strip whitespace, remove
separators, require length 2, then look the two characters up in the row
letters (uppercased) and column symbols (lowercased); a failed lookup
yields -1 in that field, only a wrong length yields `none`. -/
def Coord.from_string (s : List Char) : Option Coord :=
  match stripSeps (pyStrip s) with
  | [c0, c1] =>
    some (Coord.mk (strFind rowChars c0.toUpper) (strFind colChars c1.toLower))
  | _ => none

/-- A game move or rectangular area given by two Coords. -/
structure CoordPair where
  src : Coord
  dst : Coord
deriving DecidableEq

/-- Python `range(lo, hi)` over ints, as a list. -/
def intRange (lo hi : Int) : List Int :=
  (List.range (hi - lo).toNat).map (fun i => lo + i)

/-- Cells of the rectangular area, row-major from src to dst inclusive. -/
def CoordPair.iter_rectangle (p : CoordPair) : List Coord :=
  (intRange p.src.row (p.dst.row + 1)).flatMap (fun row =>
    (intRange p.src.col (p.dst.col + 1)).map (fun col => Coord.mk row col))

/-- A CoordPair covering a dim-sized square board. -/
def CoordPair.from_dim (dim : Int) : CoordPair :=
  CoordPair.mk (Coord.mk 0 0) (Coord.mk (dim - 1) (dim - 1))

/-- The game options the embedded operations read; search-time and broker
fields of the source are never consulted by the rule engine and are
omitted. -/
structure Options where
  dim : Int
  max_turns : Option Int

/-- The game state: board contents, active player, turn counter, options,
the two authoritative has-command-unit flags, and the trace log. -/
structure Game where
  board : Int → Int → Option Unit
  next_player : Player
  turns_played : Int
  options : Options
  attacker_has_ai : Bool
  defender_has_ai : Bool
  game_trace : List String

/-- Check if a Coord is valid within the board dimensions. -/
def Game.is_valid_coord (g : Game) (coord : Coord) : Bool :=
  let dim := g.options.dim
  if coord.row < 0 ∨ coord.row ≥ dim ∨ coord.col < 0 ∨ coord.col ≥ dim then false
  else true

/-- Get contents of a board cell: the occupant when the Coord is valid,
`none` otherwise. -/
def Game.get (g : Game) (coord : Coord) : Option Unit :=
  if g.is_valid_coord coord then g.board coord.row coord.col else none

/-- Set contents of a board cell when the Coord is valid; out-of-bounds
writes leave the game unchanged. -/
def Game.set (g : Game) (coord : Coord) (unit : Option Unit) : Game :=
  if g.is_valid_coord coord then
    { g with board := fun r c =>
        if r = coord.row ∧ c = coord.col then unit else g.board r c }
  else g

/-- Remove the unit at a Coord "if dead" — note the source first clears the
cell unconditionally, then, when the fetched unit was dead, clears it again
and drops the owning side's has-command-unit flag for an AI unit. -/
def Game.remove_dead (g : Game) (coord : Coord) : Game :=
  let unit := g.get coord
  let g1 := g.set coord none
  match unit with
  | some u =>
    if ¬ u.is_alive then
      let g2 := g1.set coord none
      if u.type = UnitType.AI then
        if u.player = Player.Attacker then { g2 with attacker_has_ai := false }
        else { g2 with defender_has_ai := false }
      else g2
    else g1
  | none => g1

/-- Modify health of the unit at a Coord (the in-place mutation of the unit
object is a cell write here), then run the dead-removal step. -/
def Game.mod_health (g : Game) (coord : Coord) (health_delta : Int) : Game :=
  match g.get coord with
  | some target => (g.set coord (some (target.mod_health health_delta))).remove_dead coord
  | none => g

/-- Is the unit of one of the two agile types (Tech or Virus)? -/
def Game.is_unit_tech_or_virus (_g : Game) (unit : Unit) : Bool :=
  unit.type = UnitType.Virus || unit.type = UnitType.Tech

/-- Destination-direction rule.  The Tech/Virus branch is the source's
boolean expression under Python precedence (`and` binds tighter than `or`):
the bare disjuncts `dst.col = src.col + 1` and `src.row = dst.row` stand on
their own.  Other unit types: self-move is valid; Attacker may step up or
left, Defender down or right. -/
def Game.is_dst_valid_square (g : Game) (unit : Unit) (src dst : Coord) : Bool :=
  if g.is_unit_tech_or_virus unit then
    (decide (src.row = dst.row + 1) && decide (src.col = dst.col)) ||
    decide (dst.col = src.col + 1) || decide (src.row = dst.row) ||
    (decide (src.row + 1 = dst.row) && decide (src.col = dst.col)) ||
    (decide (dst.col = src.col + 1) && decide (src.row = dst.row))
  else
    if unit.player = Player.Attacker then
      if src.row = dst.row ∧ src.col = dst.col then true
      else if (src.row = dst.row + 1 ∧ src.col = dst.col) ∨
              (src.col = dst.col + 1 ∧ src.row = dst.row) then true
      else false
    else
      if src.row = dst.row ∧ src.col = dst.col then true
      else if (src.row + 1 = dst.row ∧ src.col = dst.col) ∨
              (dst.col = src.col + 1 ∧ src.row = dst.row) then true
      else false

/-- The four orthogonal neighbours of src, except that the cell equal to dst
is excluded (reported as `none`), in the source's list order
[left, right, bottom, top]. -/
def Game.get_adjacent_units (g : Game) (src dst : Coord) : List (Option Unit) :=
  let topCoord := Coord.mk (src.row - 1) src.col
  let bottomCoord := Coord.mk (src.row + 1) src.col
  let rightCoord := Coord.mk src.row (src.col + 1)
  let leftCoord := Coord.mk src.row (src.col - 1)
  let top := if g.is_valid_coord topCoord ∧ topCoord ≠ dst then
      g.board topCoord.row topCoord.col else none
  let bottom := if g.is_valid_coord bottomCoord ∧ bottomCoord ≠ dst then
      g.board bottomCoord.row bottomCoord.col else none
  let right := if g.is_valid_coord rightCoord ∧ rightCoord ≠ dst then
      g.board rightCoord.row rightCoord.col else none
  let left := if g.is_valid_coord leftCoord ∧ leftCoord ≠ dst then
      g.board leftCoord.row leftCoord.col else none
  [left, right, bottom, top]

/-- Engagement-lock rule: Tech or Virus always may move; any other unit may
move only when no adjacent cell (dst excluded) holds an enemy unit. -/
def Game.is_moving_unit_allowed_to_move (g : Game) (unit : Unit) (src dst : Coord) : Bool :=
  if g.is_unit_tech_or_virus unit then true
  else
    (g.get_adjacent_units src dst).all (fun au =>
      match au with
      | some a => decide (a.player = unit.player)
      | none => true)

/-- Destination-content rule: a same-player same-type occupant is allowed
(self-destruct path), an empty cell or an enemy is allowed, a friendly unit
is allowed only below full health and with a positive repair amount. -/
def Game.can_dst_unit_be_targeted (g : Game) (unit : Unit) (dst : Coord) : Bool :=
  let src_unit := g.get dst
  if (match src_unit with
      | some su => decide (su.player = unit.player) && decide (su.type = unit.type)
      | none => false) then true
  else
    match g.board dst.row dst.col with
    | none => true
    | some target_unit =>
      if unit.player ≠ target_unit.player then true
      else if target_unit.health = 9 then false
      else decide (unit.repair_amount target_unit > 0)

/-- The move-legality state machine: bounds and ownership, then the three
composed predicates. -/
def Game.is_valid_move (g : Game) (mv : CoordPair) : Bool :=
  let dst := mv.dst
  let src := mv.src
  if ¬ g.is_valid_coord src ∨ ¬ g.is_valid_coord dst then false
  else
    match g.get src with
    | none => false
    | some unit =>
      if unit.player ≠ g.next_player then false
      else
        g.is_dst_valid_square unit src dst &&
        g.is_moving_unit_allowed_to_move unit src dst &&
        g.can_dst_unit_be_targeted unit dst

/-- Self-destruct resolution: each of the 8 surrounding occupied cells takes
2 damage and a cell whose unit dies is cleared directly (without the
dead-removal step and its flag update); the mover's health is zeroed and it
goes through the dead-removal step.  The source also computes the mover's
health as `self_destruct_damage` but never uses it. -/
def Game.apply_self_destruct_damage (g : Game) (coords : CoordPair) : Game :=
  match g.get coords.src with
  | none => g
  | some moving_unit =>
    let x := coords.src.row
    let y := coords.src.col
    let adjacent_coords : List (Int × Int) :=
      [(x - 1, y), (x + 1, y), (x, y - 1), (x, y + 1),
       (x - 1, y - 1), (x - 1, y + 1), (x + 1, y - 1), (x + 1, y + 1)]
    let g1 := adjacent_coords.foldl (fun acc ij =>
      if acc.is_valid_coord (Coord.mk ij.1 ij.2) then
        match acc.board ij.1 ij.2 with
        | some target_unit =>
          let tu := target_unit.mod_health (-2)
          let acc1 := acc.set (Coord.mk ij.1 ij.2) (some tu)
          if ¬ tu.is_alive then acc1.set (Coord.mk ij.1 ij.2) none else acc1
        | none => acc
      else acc) g
    let g2 := g1.set coords.src (some (moving_unit.mod_health (-moving_unit.health)))
    g2.remove_dead coords.src

/-- Game over test of the source: the comment there says 100 moves or a
destroyed AI, the code prints a message at 100 but returns this condition
with a hardcoded threshold of 2 turns, ignoring `options.max_turns`. -/
def Game.is_finished (g : Game) : Bool :=
  decide (g.turns_played ≥ 2) || !g.attacker_has_ai || !g.defender_has_ai

/-- Pad a string to width 3 for the board printer (`^3` format). -/
def pyCenter3 (s : String) : String :=
  if s.length ≥ 3 then s
  else
    let pad := 3 - s.length
    let left := pad / 2
    String.mk (List.replicate left ' ') ++ s ++ String.mk (List.replicate (pad - left) ' ')

/-- Pretty text representation of the game: header, column labels, then one
line per row with each cell blank or the unit's label. -/
def Game.to_string (g : Game) : String :=
  let dim := g.options.dim
  let header := "Next player: " ++ g.next_player.name ++ "\n" ++
    "Turns played: " ++ toString g.turns_played ++ "\n" ++ "\n   "
  let colHead := (intRange 0 dim).foldl (fun acc col =>
    acc ++ pyCenter3 (Coord.col_string (Coord.mk 0 col)) ++ " ") header
  let out := colHead ++ "\n"
  (intRange 0 dim).foldl (fun acc row =>
    let rowStart := acc ++ Coord.row_string (Coord.mk row 0) ++ ": "
    let rowCells := (intRange 0 dim).foldl (fun acc2 col =>
      match g.get (Coord.mk row col) with
      | none => acc2 ++ " .  "
      | some unit => acc2 ++ pyCenter3 unit.to_string ++ " ") rowStart
    rowCells ++ "\n") out

/-- Resolve a move: append the three trace lines, then either reject with
"invalid move" leaving the state untouched, or apply self-destruct, combat
exchange, repair, or relocation, and append a board snapshot when the game
is then finished. -/
def Game.perform_move (g : Game) (coords : CoordPair) : Game × Bool × String :=
  let g1 := { g with game_trace := g.game_trace ++
    ["turn #" ++ toString (g.turns_played + 1),
     g.next_player.name,
     "move from " ++ coords.src.to_string ++ " to " ++ coords.dst.to_string] }
  if g1.is_valid_move coords then
    let moving_unit := g1.get coords.src
    let target_unit := g1.get coords.dst
    let g2 :=
      if coords.src = coords.dst then g1.apply_self_destruct_damage coords
      else
        match target_unit with
        | some tu =>
          match moving_unit with
          | some mu =>
            if tu.player ≠ mu.player then
              let damage := mu.damage_amount tu
              (g1.mod_health coords.dst (-damage)).mod_health coords.src (-damage)
            else
              let repair := mu.repair_amount tu
              g1.mod_health coords.dst repair
          | none => g1
        | none => (g1.set coords.dst moving_unit).set coords.src none
    let g3 :=
      if g2.is_finished then
        { g2 with game_trace := g2.game_trace ++ ["New board configuration:", g2.to_string] }
      else g2
    (g3, true, "")
  else
    (g1, false, "invalid move")

/-- Transition the game to the next turn. -/
def Game.next_turn (g : Game) : Game :=
  { g with next_player := g.next_player.next, turns_played := g.turns_played + 1 }

/-- All units belonging to a player with their Coords, scanning the board
rectangle row-major. -/
def Game.player_units (g : Game) (player : Player) : List (Coord × Unit) :=
  (CoordPair.from_dim g.options.dim).iter_rectangle.filterMap (fun coord =>
    match g.get coord with
    | some unit => if unit.player = player then some (coord, unit) else none
    | none => none)

/-- Valid move candidates for the next player: for each of its units in
scan order, the adjacent destinations passing the legality test, then the
self-move, which is yielded without any test. -/
def Game.move_candidates (g : Game) : List CoordPair :=
  (g.player_units g.next_player).flatMap (fun su =>
    ((su.1.iter_adjacent).filter (fun dst => g.is_valid_move (CoordPair.mk su.1 dst))).map
      (fun dst => CoordPair.mk su.1 dst)
    ++ [CoordPair.mk su.1 su.1])

/-- The enumeration order as the specification words it: source cells
row-major over the board; for each source cell holding a unit of the active
side, the four destinations up, left, down, right in that fixed order,
keeping those accepted by the legality test; then the self-move, always
yielded last. -/
def specMoveCandidates (g : Game) : List CoordPair :=
  (intRange 0 g.options.dim).flatMap (fun row =>
    (intRange 0 g.options.dim).flatMap (fun col =>
      match g.get (Coord.mk row col) with
      | some u =>
        if u.player = g.next_player then
          (([Coord.mk (row - 1) col, Coord.mk row (col - 1),
             Coord.mk (row + 1) col, Coord.mk row (col + 1)].filter
              (fun dst => g.is_valid_move (CoordPair.mk (Coord.mk row col) dst))).map
            (fun dst => CoordPair.mk (Coord.mk row col) dst))
          ++ [CoordPair.mk (Coord.mk row col) (Coord.mk row col)]
        else []
      | none => []))

/-- Build a board-contents function from a list of (row, col, unit)
entries; every other cell is empty. -/
def mkBoard (entries : List (Int × Int × Unit)) : Int → Int → Option Unit :=
  fun r c => (entries.find? (fun e => decide (e.1 = r) && decide (e.2.1 = c))).map (fun e => e.2.2)

/-- The default options: a 5 x 5 board with a 100-turn limit. -/
def optsDefault : Options := { dim := 5, max_turns := some 100 }

/-- A game with a single Attacker Program at (0, 0). -/
def gSolo : Game :=
  { board := mkBoard [(0, 0, Unit.mk Player.Attacker UnitType.Program 9)]
    next_player := Player.Attacker
    turns_played := 0
    options := optsDefault
    attacker_has_ai := true
    defender_has_ai := true
    game_trace := [] }

/-- The single-unit game after two turns have been played. -/
def gTurns2 : Game := { gSolo with turns_played := 2 }

/-- An Attacker Program at (1, 1) facing a Defender Program at (0, 1). -/
def gProgDuel : Game :=
  { board := mkBoard [(1, 1, Unit.mk Player.Attacker UnitType.Program 9),
                      (0, 1, Unit.mk Player.Defender UnitType.Program 9)]
    next_player := Player.Attacker
    turns_played := 0
    options := optsDefault
    attacker_has_ai := true
    defender_has_ai := true
    game_trace := [] }

/-- A lone Attacker Virus at (2, 2) on an otherwise empty board. -/
def gVirusLone : Game :=
  { board := mkBoard [(2, 2, Unit.mk Player.Attacker UnitType.Virus 9)]
    next_player := Player.Attacker
    turns_played := 0
    options := optsDefault
    attacker_has_ai := true
    defender_has_ai := true
    game_trace := [] }

/-- An Attacker Virus at (1, 1) diagonally beside a Defender AI with 2
health at (0, 0). -/
def gSplash : Game :=
  { board := mkBoard [(1, 1, Unit.mk Player.Attacker UnitType.Virus 9),
                      (0, 0, Unit.mk Player.Defender UnitType.AI 2)]
    next_player := Player.Attacker
    turns_played := 0
    options := optsDefault
    attacker_has_ai := true
    defender_has_ai := true
    game_trace := [] }

end AiWargame

namespace AiWargame

/-- Index, bound and membership facts about `strFind`: the result is -1, or
a valid index of the searched list at which the needle sits. -/
theorem strFind_spec (l : List Char) (d : Char) :
    strFind l d = -1 ∨
    (0 ≤ strFind l d ∧ strFind l d < (l.length : Int) ∧
      l.getD (strFind l d).toNat '?' = d) := by
  induction l with
  | nil => exact Or.inl rfl
  | cons c rest ih =>
    by_cases hc : c = d
    · right
      simp only [strFind, if_pos hc]
      refine ⟨le_refl 0, ?_, by simpa using hc⟩
      simp only [List.length_cons]
      push_cast
      omega
    · simp only [strFind, if_neg hc]
      rcases ih with h1 | ⟨h2, h3, h4⟩
      · left
        simp [h1]
      · right
        have hne : strFind rest d ≠ -1 := by omega
        rw [if_neg hne]
        have ht : (strFind rest d + 1).toNat = (strFind rest d).toNat + 1 := by omega
        refine ⟨by omega, ?_, ?_⟩
        · simp only [List.length_cons]
          push_cast
          omega
        · rw [ht]
          simpa using h4

/-- C1: the claim says a unit stays on the board after a health
modification whenever its resulting health is positive; in the code
`Game.remove_dead` clears the cell unconditionally, so `Game.mod_health`
removes even a unit whose health is still 8 after the delta. -/
theorem mod_health_removes_live_unit :
    gSolo.get (Coord.mk 0 0) = some (Unit.mk Player.Attacker UnitType.Program 9) ∧
    ((Unit.mk Player.Attacker UnitType.Program 9).mod_health (-1)).health = 8 ∧
    (gSolo.mod_health (Coord.mk 0 0) (-1)).get (Coord.mk 0 0) = none := by
  decide

/-- C2: the claim says the game is not terminal while both command flags
are true and the turn count is below `options.max_turns`; the code's
`Game.is_finished` returns true already at 2 turns played with both flags
true and a configured limit of 100. -/
theorem is_finished_at_two_turns :
    gTurns2.is_finished = true ∧
    gTurns2.attacker_has_ai = true ∧
    gTurns2.defender_has_ai = true ∧
    gTurns2.turns_played = 2 ∧
    gTurns2.options.max_turns = some 100 ∧
    gTurns2.turns_played < 100 := by
  decide

/-- C3: the claim says a Tech or Virus move with distinct source and
destination is accepted only for the four orthogonally adjacent cells; the
code accepts a same-row cell two columns away and a diagonal cell for a
Virus of the active side, neither of which is adjacent. -/
theorem tech_virus_nonadjacent_accepted :
    gVirusLone.get (Coord.mk 2 2) = some (Unit.mk Player.Attacker UnitType.Virus 9) ∧
    gVirusLone.is_valid_move (CoordPair.mk (Coord.mk 2 2) (Coord.mk 2 0)) = true ∧
    gVirusLone.is_valid_move (CoordPair.mk (Coord.mk 2 2) (Coord.mk 1 3)) = true ∧
    ¬ (Coord.mk 2 0 ∈ (Coord.mk 2 2).iter_adjacent) ∧
    ¬ (Coord.mk 1 3 ∈ (Coord.mk 2 2).iter_adjacent) := by
  decide

/-- C4: the claim says the self-move is accepted for every unit of the
active side, even a non-agile unit beside enemies; the code's
engagement-lock check does not exempt the self-move, so a Program of the
active side adjacent to an enemy cannot self-move. -/
theorem self_move_blocked_when_engaged :
    gProgDuel.get (Coord.mk 1 1) = some (Unit.mk Player.Attacker UnitType.Program 9) ∧
    gProgDuel.get (Coord.mk 0 1) = some (Unit.mk Player.Defender UnitType.Program 9) ∧
    gProgDuel.next_player = Player.Attacker ∧
    gProgDuel.is_valid_move (CoordPair.mk (Coord.mk 1 1) (Coord.mk 1 1)) = false := by
  decide

/-- C5: the claim says every removal of an AI unit drops the owning side's
has-command-unit flag; the code's self-destruct splash clears a killed
neighbour directly without the flag update, so a Defender AI removed by
splash leaves `defender_has_ai` true. -/
theorem splash_kill_keeps_ai_flag :
    gSplash.get (Coord.mk 0 0) = some (Unit.mk Player.Defender UnitType.AI 2) ∧
    (gSplash.perform_move (CoordPair.mk (Coord.mk 1 1) (Coord.mk 1 1))).2.1 = true ∧
    (gSplash.perform_move (CoordPair.mk (Coord.mk 1 1) (Coord.mk 1 1))).1.get (Coord.mk 0 0) = none ∧
    (gSplash.perform_move (CoordPair.mk (Coord.mk 1 1) (Coord.mk 1 1))).1.defender_has_ai = true := by
  decide

/-- C6: the claim says that after an attack both units lose the computed
damage and the mover stays at its source; in the code the unconditional
cell clearing of `Game.remove_dead` removes both combatants from the board
although the damage of 3 leaves each of them at 6 health. -/
theorem attack_removes_surviving_units :
    (Unit.mk Player.Attacker UnitType.Program 9).damage_amount
      (Unit.mk Player.Defender UnitType.Program 9) = 3 ∧
    (gProgDuel.perform_move (CoordPair.mk (Coord.mk 1 1) (Coord.mk 0 1))).2.1 = true ∧
    (gProgDuel.perform_move (CoordPair.mk (Coord.mk 1 1) (Coord.mk 0 1))).1.get (Coord.mk 0 1) = none ∧
    (gProgDuel.perform_move (CoordPair.mk (Coord.mk 1 1) (Coord.mk 0 1))).1.get (Coord.mk 1 1) = none := by
  decide

/-- C7: a move rejected by the legality state machine makes `perform_move`
return failure with reason "invalid move", and leaves the board, the
active player, the turn counter, the command flags and the options
unchanged; only the trace grows, by the three recorded lines. -/
theorem perform_move_invalid_unchanged (g : Game) (coords : CoordPair)
    (h : g.is_valid_move coords = false) :
    (g.perform_move coords).2.1 = false ∧
    (g.perform_move coords).2.2 = "invalid move" ∧
    (g.perform_move coords).1.board = g.board ∧
    (g.perform_move coords).1.next_player = g.next_player ∧
    (g.perform_move coords).1.turns_played = g.turns_played ∧
    (g.perform_move coords).1.attacker_has_ai = g.attacker_has_ai ∧
    (g.perform_move coords).1.defender_has_ai = g.defender_has_ai ∧
    (g.perform_move coords).1.options = g.options ∧
    (g.perform_move coords).1.game_trace = g.game_trace ++
      ["turn #" ++ toString (g.turns_played + 1),
       g.next_player.name,
       "move from " ++ coords.src.to_string ++ " to " ++ coords.dst.to_string] := by
  have h1 : ({ g with game_trace := g.game_trace ++
      ["turn #" ++ toString (g.turns_played + 1),
       g.next_player.name,
       "move from " ++ coords.src.to_string ++ " to " ++ coords.dst.to_string] } : Game).is_valid_move
      coords = false := h
  unfold Game.perform_move
  simp only [h1, Bool.false_eq_true, if_false]
  simp

/-- Witness for C7 at a concrete game and an out-of-bounds source. -/
theorem perform_move_invalid_unchanged_apply :
    gSolo.is_valid_move (CoordPair.mk (Coord.mk (-1) 0) (Coord.mk 0 0)) = false ∧
    (gSolo.perform_move (CoordPair.mk (Coord.mk (-1) 0) (Coord.mk 0 0))).2.1 = false :=
  ⟨by decide,
   (perform_move_invalid_unchanged gSolo
     (CoordPair.mk (Coord.mk (-1) 0) (Coord.mk 0 0)) (by decide)).1⟩

/-- C8 counterexample: on a length-2 input of unrecognized characters the
parser returns a Coord with -1 fields, not `none`. -/
theorem from_string_unrecognized_not_none :
    Coord.from_string ['!', '$'] = some (Coord.mk (-1) (-1)) := by
  decide

/-- C8 amended: `Coord.from_string` returns `none` exactly when the input,
after stripping whitespace and separators, has a length other than 2; on a
returned Coord each field is -1 or an in-range index at which the
recognized-character string holds the (case-adjusted) input character. -/
theorem from_string_length_and_index (s : List Char) :
    (Coord.from_string s = none ↔ (stripSeps (pyStrip s)).length ≠ 2) ∧
    (∀ c : Coord, Coord.from_string s = some c →
      (c.row = -1 ∨ (0 ≤ c.row ∧ c.row < 26 ∧
        rowChars.getD c.row.toNat '?' = ((stripSeps (pyStrip s)).getD 0 '?').toUpper)) ∧
      (c.col = -1 ∨ (0 ≤ c.col ∧ c.col < 16 ∧
        colChars.getD c.col.toNat '?' = ((stripSeps (pyStrip s)).getD 1 '?').toLower))) := by
  unfold Coord.from_string
  rcases hl : stripSeps (pyStrip s) with _ | ⟨c0, _ | ⟨c1, _ | ⟨c2, t⟩⟩⟩
  · simp
  · simp
  · constructor
    · simp
    · intro c hc
      have hc' : c = Coord.mk (strFind rowChars c0.toUpper) (strFind colChars c1.toLower) := by
        simpa using hc.symm
      subst hc'
      dsimp only
      constructor
      · rcases strFind_spec rowChars c0.toUpper with h1 | ⟨h2, h3, h4⟩
        · exact Or.inl h1
        · refine Or.inr ⟨h2, ?_, by simpa using h4⟩
          have hlen : (rowChars.length : Int) = 26 := by decide
          omega
      · rcases strFind_spec colChars c1.toLower with h1 | ⟨h2, h3, h4⟩
        · exact Or.inl h1
        · refine Or.inr ⟨h2, ?_, by simpa using h4⟩
          have hlen : (colChars.length : Int) = 16 := by decide
          omega
  · simp

/-- Witness for C8's amended statement at a well-formed concrete input. -/
theorem from_string_length_and_index_apply :
    Coord.from_string ['D', '2'] = some (Coord.mk 3 2) ∧
    ((3 : Int) = -1 ∨ (0 ≤ (3 : Int) ∧ (3 : Int) < 26 ∧
      rowChars.getD 3 '?' = 'D')) :=
  ⟨by decide,
   by
    have h := ((from_string_length_and_index ['D', '2']).2 (Coord.mk 3 2) (by decide)).1
    simpa using h⟩

/-- Flat-mapping over a filtered-mapped list inlines the optional step. -/
theorem flatMap_filterMap_match {α β γ : Type} (l : List α) (q : α → Option β)
    (F : β → List γ) :
    (l.filterMap q).flatMap F =
      l.flatMap (fun a => match q a with | some b => F b | none => []) := by
  induction l with
  | nil => rfl
  | cons a t ih =>
    rw [List.filterMap_cons]
    cases hqa : q a with
    | none => simp only [List.flatMap_cons, hqa, ih, List.nil_append]
    | some b => simp only [List.flatMap_cons, hqa, ih]

/-- C9: the candidate enumeration of the code equals the enumeration the
specification describes: row-major source cells, per source the
destinations up, left, down, right filtered by the legality test, then the
always-yielded self-move. -/
theorem move_candidates_order (g : Game) :
    g.move_candidates = specMoveCandidates g := by
  unfold Game.move_candidates Game.player_units specMoveCandidates
    CoordPair.iter_rectangle CoordPair.from_dim
  dsimp only
  rw [Int.sub_add_cancel]
  rw [List.filterMap_flatMap, List.flatMap_assoc]
  congr 1
  funext r
  rw [List.filterMap_map, flatMap_filterMap_match]
  congr 1
  funext c
  cases hget : g.get (Coord.mk r c) with
  | none => simp [Function.comp, hget]
  | some u =>
    by_cases hp : u.player = g.next_player
    · simp [Function.comp, hget, hp, Coord.iter_adjacent]
    · simp [Function.comp, hget, hp]

/-- C10: out-of-bounds access is safe: `Game.get` returns `none` and
`Game.set` returns the game unchanged for every invalid Coord. -/
theorem get_set_out_of_bounds (g : Game) (coord : Coord) (unit : Option Unit)
    (h : g.is_valid_coord coord = false) :
    g.get coord = none ∧ g.set coord unit = g := by
  unfold Game.get Game.set
  rw [h]
  simp

/-- Witness for C10 at a concrete game and a negative-row Coord. -/
theorem get_set_out_of_bounds_apply :
    gSolo.get (Coord.mk (-1) 3) = none ∧ gSolo.set (Coord.mk (-1) 3) none = gSolo :=
  get_set_out_of_bounds gSolo (Coord.mk (-1) 3) none (by decide)

end AiWargame
